import Mathlib

/-!
Verification development for the per-shard history core of the cadence
repository: the Cassandra history persistence layer, the history replicator
and the active timer queue processor. Go source files are embedded shallowly:
pure functions become Lean functions, stateful code becomes explicit state
passing, pointer dereference failures become explicit panic values, and
external collaborators (event store, matching service, mutable-state builder
internals) are environment parameters recording their outcomes.
-/

namespace Cadence

/-- Raw byte strings (Go byte slices) are modelled as lists of integers; a
nil slice and an empty slice both become the empty list, matching how the
source only ever tests them through their length. -/
abbrev Bytes := List Int

/-- Association-list lookup, the model of a Go map read returning
(value, ok). -/
def alookup {κ α : Type} [DecidableEq κ] : List (κ × α) → κ → Option α
  | [], _ => none
  | p :: rest, k => if p.1 = k then some p.2 else alookup rest k

/-- Association-list removal of every binding of a key, the model of a Go
map delete. -/
def aerase {κ α : Type} [DecidableEq κ] : List (κ × α) → κ → List (κ × α)
  | [], _ => []
  | p :: rest, k => if p.1 = k then aerase rest k else p :: aerase rest k

/-- Association-list insert-or-replace, the model of a Go map write. -/
def aupdate {κ α : Type} [DecidableEq κ] (m : List (κ × α)) (k : κ) (v : α) :
    List (κ × α) :=
  (k, v) :: aerase m k

namespace Persistence

/-- Modelled from the spec: the sentinel version value used when no event
batch version is present (the code of the common package is not part of the
sources shown; the spec only requires it to be a distinguished constant). -/
def emptyVersion : Int := -24

/-- The history page token of cassandraHistoryPersistence: the last accepted
event batch version plus the raw Cassandra paging cursor. -/
structure HistoryToken where
  lastEventBatchVersion : Int
  data : Bytes
deriving DecidableEq

/-- Stand-in for json.Marshal on historyToken: an injective encoding of both
fields into a byte string. The encoding is never empty, matching the fact
that the JSON rendering of a struct is never the empty byte string. -/
def marshalToken (t : HistoryToken) : Bytes :=
  0 :: t.lastEventBatchVersion :: t.data

/-- Stand-in for json.Unmarshal on historyToken: the exact inverse of
marshalToken, returning none on inputs that do not decode. -/
def unmarshalToken : Bytes → Option HistoryToken
  | 0 :: v :: rest => some ⟨v, rest⟩
  | _ => none

/-- serializeToken from cassandraHistoryPersistence.go: a token whose cursor
is empty serializes to nil; otherwise the token is JSON marshalled. -/
def serializeToken (token : HistoryToken) : Bytes :=
  if token.data = [] then [] else marshalToken token

/-- deserializeToken from cassandraHistoryPersistence.go: empty input yields
the default token; otherwise JSON unmarshal, falling back (for backward
compatibility) to treating the input as a raw Cassandra cursor. -/
def deserializeToken (data : Bytes) : HistoryToken :=
  if data = [] then ⟨emptyVersion, []⟩
  else
    match unmarshalToken data with
    | some token => token
    | none => ⟨emptyVersion, data⟩

/-- One serialized history event batch row as read back from the events
table (data, data_encoding, data_version columns). -/
structure SerializedHistoryEventBatch where
  data : Bytes
  encodingType : String
  version : Int
deriving DecidableEq

/-- One row of the events-table query: the event_batch_version column plus
the batch assembled by createSerializedHistoryEventBatch. -/
structure HistoryRow where
  eventBatchVersion : Int
  batch : SerializedHistoryEventBatch
deriving DecidableEq

/-- The request fields of GetWorkflowExecutionHistory that the returned
value depends on. -/
structure GetHistoryRequest where
  domainID : String
  workflowID : String
  runID : String
  firstEventID : Int
  nextEventID : Int
  pageSize : Nat
  nextPageToken : Bytes
deriving DecidableEq

/-- Outcome of one Cassandra query iteration: the rows MapScan yields in
order, the next page state reported by the iterator, and whether Close
reported an error. -/
structure QueryIteration where
  rows : List HistoryRow
  pageState : Bytes
  closeFailed : Bool
deriving DecidableEq

structure GetHistoryResponse where
  events : List SerializedHistoryEventBatch
  nextPageToken : Bytes
deriving DecidableEq

inductive PersistenceErr
  | entityNotExists
  | internalService
deriving DecidableEq

/-- The row filter loop of GetWorkflowExecutionHistory: a row is accepted
when its event_batch_version is at least the running
token.LastEventBatchVersion, which is then advanced to that version. Returns
the final token version and the accepted rows in order. -/
def filterHistoryRows (lastVersion : Int) : List HistoryRow → Int × List HistoryRow
  | [] => (lastVersion, [])
  | r :: rest =>
    if lastVersion ≤ r.eventBatchVersion then
      let next := filterHistoryRows r.eventBatchVersion rest
      (next.1, r :: next.2)
    else
      filterHistoryRows lastVersion rest

/-- GetWorkflowExecutionHistory from cassandraHistoryPersistence.go:
deserializes the page token, replaces its cursor with the iterator page
state, folds the rows through the version filter, serializes the new token,
surfaces an iterator Close failure as an internal error, and reports
EntityNotExists exactly when nothing was scanned on a first page. -/
def getWorkflowExecutionHistory (req : GetHistoryRequest) (iter : QueryIteration) :
    Except PersistenceErr GetHistoryResponse :=
  let token := deserializeToken req.nextPageToken
  let filtered := filterHistoryRows token.lastEventBatchVersion iter.rows
  let nextToken := serializeToken ⟨filtered.1, iter.pageState⟩
  if iter.closeFailed then
    .error .internalService
  else if iter.rows.isEmpty && req.nextPageToken.isEmpty then
    .error .entityNotExists
  else
    .ok ⟨(filtered.2).map (fun r => r.batch), nextToken⟩

end Persistence

namespace Replicator

/-- Error kinds the replicator surfaces (sentinel errors of
historyReplicator.go plus pass-through kinds of its collaborators). -/
inductive ReplErr
  | entityNotExists
  | missingReplicationInfo
  | corruptedReplicationInfo
  | retryBufferEvents
  | retryExistingWorkflow
  | retryEntityNotExists
  | bufferAddFailed
  | workflowAlreadyStarted
  | flushFuelExhausted
  | internal (code : Nat)
deriving DecidableEq

/-- One history event, restricted to the fields the replicator reads. -/
structure HistoryEvent where
  eventID : Int
  version : Int
  timestamp : Int
deriving DecidableEq

/-- Per-remote-cluster replication info carried by a replication request. -/
structure ReplicationInfo where
  version : Int
  lastEventID : Int
deriving DecidableEq

/-- The fields of h.ReplicateEventsRequest the replicator reads. The
replicationInfo Go map becomes an association list keyed by cluster name. -/
structure ReplicateEventsRequest where
  sourceCluster : String
  domainUUID : String
  workflowID : String
  runID : String
  firstEventID : Int
  nextEventID : Int
  version : Int
  replicationInfo : List (String × ReplicationInfo)
  history : List HistoryEvent
  newRunHistory : List HistoryEvent
  forceBufferEvents : Bool
deriving DecidableEq

/-- The replication state of a mutable state builder. -/
structure ReplicationState where
  currentVersion : Int
  startVersion : Int
  lastWriteVersion : Int
  lastWriteEventID : Int
deriving DecidableEq

/-- One buffered out-of-order replication batch held in mutable state. -/
structure BufferedReplicationTask where
  firstEventID : Int
  nextEventID : Int
  version : Int
  history : List HistoryEvent
  newRunHistory : List HistoryEvent
deriving DecidableEq

/-- The execution-info fields of mutable state the replicator reads. -/
structure ExecutionInfo where
  domainID : String
  workflowID : String
  runID : String
  startTimestamp : Int
  nextEventID : Int
deriving DecidableEq

/-- The slice of a mutable state builder the replicator manipulates: the
buffered-replication-task map is an association list keyed by firstEventID. -/
structure MutableState where
  executionInfo : ExecutionInfo
  replicationState : ReplicationState
  bufferedReplicationTasks : List (Int × BufferedReplicationTask)
deriving DecidableEq

def MutableState.nextEventID (ms : MutableState) : Int :=
  ms.executionInfo.nextEventID

def MutableState.lastWriteVersion (ms : MutableState) : Int :=
  ms.replicationState.lastWriteVersion

/-- The two cluster-metadata queries the replicator performs; abstract
because the cluster package is outside the shown sources. -/
structure ClusterMetadata where
  clusterNameForFailoverVersion : Int → String
  isVersionFromSameCluster : Int → Int → Bool

/-- Outcomes of the collaborators invoked on the conflict-resolution path of
ApplyOtherEventsVersionChecking: the terminate-continue-as-new pre-step, the
generated fresh run identifier (uuid.New), and the conflict resolver reset
call (fresh runID, replication-info lastEventID, original start timestamp). -/
structure ConflictResolutionEnv where
  terminateContinueAsNew : Option ReplErr
  freshRunID : String
  resolverReset : String → Int → Int → Except ReplErr MutableState

/-- ApplyOtherEventsVersionChecking from historyReplicator.go, lines
245-315: returns (mutable state to continue with, error), where (none, none)
means the request was dropped. -/
def applyOtherEventsVersionChecking (cm : ClusterMetadata) (cr : ConflictResolutionEnv)
    (ms : MutableState) (request : ReplicateEventsRequest) :
    Option MutableState × Option ReplErr :=
  let incomingVersion := request.version
  let rState := ms.replicationState
  if incomingVersion < rState.lastWriteVersion then
    (none, none)
  else if rState.lastWriteVersion = incomingVersion then
    (some ms, none)
  else
    let previousActiveCluster := cm.clusterNameForFailoverVersion rState.lastWriteVersion
    match alookup request.replicationInfo previousActiveCluster with
    | none =>
      if cm.isVersionFromSameCluster incomingVersion rState.lastWriteVersion then
        (some ms, none)
      else
        (none, some .missingReplicationInfo)
    | some ri =>
      if rState.lastWriteEventID < ri.lastEventID then
        (none, some .corruptedReplicationInfo)
      else if ri.lastEventID < rState.lastWriteEventID then
        match cr.terminateContinueAsNew with
        | some e => (none, some e)
        | none =>
          match cr.resolverReset cr.freshRunID ri.lastEventID ms.executionInfo.startTimestamp with
          | .error e => (none, some e)
          | .ok ms2 => (some ms2, none)
      else
        (some ms, none)

/-- The arguments of the context.updateHelper call made when persisting a
buffered replication task: transfer tasks, timer tasks and the standby
history builder are all nil at that call site, so only the transaction ID,
the commit timestamp, the create-replication-task flag and the source
cluster remain. -/
structure UpdateHelperCall where
  transactionID : Int
  commitTimestamp : Int
  createReplicationTask : Bool
  sourceCluster : String
deriving DecidableEq

/-- External collaborators of ApplyOtherEvents and FlushBuffer: shard task-ID
generation, the buffered-task capacity of the mutable-state builder
(modelled from the spec, which says BufferReplicationTask fails with a
domain error when capacity is exceeded), ApplyReplicationTask as a state
transformer, and the updateHelper persistence call. -/
structure ReplicatorEnv where
  clusterMetadata : ClusterMetadata
  getNextTransferTaskID : Except ReplErr Int
  bufferCapacity : Nat
  applyReplicationTask : MutableState → ReplicateEventsRequest → Except ReplErr MutableState
  updateHelper : UpdateHelperCall → Option ReplErr

/-- Modelled from the spec: msBuilder.BufferReplicationTask stores the
out-of-order batch keyed by firstEventID and fails when capacity is
exceeded; it touches neither nextEventID nor the replication state. -/
def bufferReplicationTask (capacity : Nat) (ms : MutableState)
    (request : ReplicateEventsRequest) : Option MutableState :=
  if capacity ≤ ms.bufferedReplicationTasks.length then none
  else
    some { ms with
      bufferedReplicationTasks := aupdate ms.bufferedReplicationTasks request.firstEventID
        ⟨request.firstEventID, request.nextEventID, request.version,
          request.history, request.newRunHistory⟩ }

/-- The timestamp of the last event of a batch (time.Unix(0, ts) is kept as
the raw nanosecond value). -/
def lastEventTimestamp (history : List HistoryEvent) : Int :=
  match history.getLast? with
  | some e => e.timestamp
  | none => 0

/-- The ReplicateEventsRequest FlushBuffer handcrafts from a buffered batch
(source cluster resolved from the batch version; execution identity captured
before the loop). -/
def mkBufferedRequest (env : ReplicatorEnv) (domainID workflowID runID : String)
    (bt : BufferedReplicationTask) : ReplicateEventsRequest :=
  { sourceCluster := env.clusterMetadata.clusterNameForFailoverVersion bt.version
    domainUUID := domainID
    workflowID := workflowID
    runID := runID
    firstEventID := bt.firstEventID
    nextEventID := bt.nextEventID
    version := bt.version
    replicationInfo := []
    history := bt.history
    newRunHistory := bt.newRunHistory
    forceBufferEvents := false }

/-- The FlushBuffer loop of historyReplicator.go, lines 439-489, as a fueled
iteration (none means the fuel ran out; the termination theorem shows the
fuel chosen by flushBuffer always suffices). Each pass: stop when no batch
is keyed by the current nextEventID, otherwise delete the batch from the
buffer first and then apply it. -/
def flushBufferAux (env : ReplicatorEnv) (domainID workflowID runID : String) :
    Nat → MutableState → Option (Except ReplErr MutableState)
  | 0, _ => none
  | fuel + 1, ms =>
    if ms.bufferedReplicationTasks.isEmpty then some (.ok ms)
    else
      match alookup ms.bufferedReplicationTasks ms.nextEventID with
      | none => some (.ok ms)
      | some bt =>
        let ms1 := { ms with
          bufferedReplicationTasks := aerase ms.bufferedReplicationTasks ms.nextEventID }
        match env.applyReplicationTask ms1 (mkBufferedRequest env domainID workflowID runID bt) with
        | .error e => some (.error e)
        | .ok ms2 => flushBufferAux env domainID workflowID runID fuel ms2

/-- FlushBuffer entry point: execution identity is read from the mutable
state once, and the fuel is one more than the buffer size. -/
def flushBuffer (env : ReplicatorEnv) (ms : MutableState) :
    Option (Except ReplErr MutableState) :=
  flushBufferAux env ms.executionInfo.domainID ms.executionInfo.workflowID
    ms.executionInfo.runID (ms.bufferedReplicationTasks.length + 1) ms

/-- Observable outcome of ApplyOtherEvents: final in-memory mutable state,
returned error, the updateHelper persistence calls made, and whether
ApplyReplicationTask and FlushBuffer were invoked. -/
structure ApplyOtherOutcome where
  ms : MutableState
  err : Option ReplErr
  updateHelperCalls : List UpdateHelperCall
  applied : Bool
  flushed : Bool
deriving DecidableEq

/-- ApplyOtherEvents from historyReplicator.go, lines 317-379: drop
duplicates, buffer (or refuse to buffer) out-of-order batches, and apply
in-order batches followed by a buffer flush. -/
def applyOtherEvents (env : ReplicatorEnv) (ms : MutableState)
    (request : ReplicateEventsRequest) : ApplyOtherOutcome :=
  if request.firstEventID < ms.nextEventID then
    ⟨ms, none, [], false, false⟩
  else if ms.nextEventID < request.firstEventID then
    if request.forceBufferEvents = false then
      ⟨ms, some .retryBufferEvents, [], false, false⟩
    else
      match bufferReplicationTask env.bufferCapacity ms request with
      | none => ⟨ms, some .bufferAddFailed, [], false, false⟩
      | some ms1 =>
        match env.getNextTransferTaskID with
        | .error e => ⟨ms1, some e, [], false, false⟩
        | .ok transactionID =>
          let lastWriteVersion := ms1.replicationState.lastWriteVersion
          let sourceCluster := env.clusterMetadata.clusterNameForFailoverVersion lastWriteVersion
          let call : UpdateHelperCall :=
            ⟨transactionID, lastEventTimestamp request.history, false, sourceCluster⟩
          ⟨ms1, env.updateHelper call, [call], false, false⟩
  else
    match env.applyReplicationTask ms request with
    | .error e => ⟨ms, some e, [], true, false⟩
    | .ok ms1 =>
      match flushBuffer env ms1 with
      | none => ⟨ms1, some .flushFuelExhausted, [], true, true⟩
      | some (.error e) => ⟨ms1, some e, [], true, true⟩
      | some (.ok ms2) => ⟨ms2, none, [], true, true⟩

/-- The workflow state carried by a WorkflowExecutionAlreadyStartedError. -/
inductive WorkflowState
  | created
  | running
  | completed
deriving DecidableEq

/-- Failure of a CreateWorkflowExecution call: either the
AlreadyStarted error with the details of the existing run, or any other
persistence error. -/
inductive CreateFailure
  | alreadyStarted (runID : String) (state : WorkflowState) (startVersion : Int)
  | other (e : ReplErr)
deriving DecidableEq

/-- The error value createWorkflow returns to the caller of
replicateWorkflowStarted. -/
def CreateFailure.toErr : CreateFailure → ReplErr
  | .alreadyStarted _ _ _ => .workflowAlreadyStarted
  | .other e => e

/-- Outcomes of the collaborators replicateWorkflowStarted invokes, in
source order: history serialization, shard transaction-ID generation, the
history append, workflow-record creation (keyed by the isBrandNew flag and
the previous runID it is called with), the current-workflow buffer flush,
and workflow termination. -/
structure StartReplicationEnv where
  serializeHistory : Option ReplErr
  getNextTransferTaskID : Except ReplErr Int
  appendHistoryEvents : Option ReplErr
  createWorkflow : Bool → String → Option CreateFailure
  flushCurrentWorkflowBuffer : Option ReplErr
  terminateWorkflow : Option ReplErr

/-- Observable outcome of replicateWorkflowStarted: the returned error,
whether the history batch append succeeded, whether
DeleteWorkflowExecutionHistory was invoked on the appended batch, the
createWorkflow calls made (isBrandNew, previousRunID), and whether the
terminate and current-buffer-flush collaborators were invoked. -/
structure StartReplicationResult where
  err : Option ReplErr
  historyAppended : Bool
  historyDeleted : Bool
  createCalls : List (Bool × String)
  terminated : Bool
  flushedCurrent : Bool
deriving DecidableEq

/-- The second createWorkflow call (isBrandNew = false, previous runID =
currentRunID) shared by the completed branch and the terminate branch. -/
def createWithPreviousRunID (env : StartReplicationEnv) (currentRunID : String)
    (terminated : Bool) : StartReplicationResult :=
  match env.createWorkflow false currentRunID with
  | none => ⟨none, true, false, [(true, ""), (false, currentRunID)], terminated, false⟩
  | some f => ⟨some f.toErr, true, false, [(true, ""), (false, currentRunID)], terminated, false⟩

/-- replicateWorkflowStarted from historyReplicator.go, lines 491-673,
restricted to its control flow over the collaborators (the executionInfo and
replication-state bookkeeping between the append and the create carries no
branch). incomingVersion is the version of the first event of the batch. -/
def replicateWorkflowStarted (env : StartReplicationEnv) (incomingRunID : String)
    (incomingVersion : Int) : StartReplicationResult :=
  match env.serializeHistory with
  | some e => ⟨some e, false, false, [], false, false⟩
  | none =>
  match env.getNextTransferTaskID with
  | .error e => ⟨some e, false, false, [], false, false⟩
  | .ok _ =>
  match env.appendHistoryEvents with
  | some e => ⟨some e, false, false, [], false, false⟩
  | none =>
  match env.createWorkflow true "" with
  | none => ⟨none, true, false, [(true, "")], false, false⟩
  | some (.other e) => ⟨some e, true, true, [(true, "")], false, false⟩
  | some (.alreadyStarted currentRunID currentState currentStartVersion) =>
    if currentRunID = incomingRunID then
      ⟨none, true, false, [(true, "")], false, false⟩
    else if currentState = .completed then
      if incomingVersion < currentStartVersion then
        ⟨none, true, true, [(true, "")], false, false⟩
      else
        createWithPreviousRunID env currentRunID false
    else
      if incomingVersion < currentStartVersion then
        ⟨none, true, true, [(true, "")], false, false⟩
      else if currentStartVersion = incomingVersion then
        match env.flushCurrentWorkflowBuffer with
        | some e => ⟨some e, true, false, [(true, "")], false, true⟩
        | none => ⟨some .retryExistingWorkflow, true, false, [(true, "")], false, true⟩
      else
        match env.terminateWorkflow with
        | some .entityNotExists => createWithPreviousRunID env currentRunID true
        | some e => ⟨some e, true, false, [(true, "")], true, false⟩
        | none => createWithPreviousRunID env currentRunID true

/-- A Go panic observed at the ApplyEvents entry. -/
inductive GoPanic
  | nilPointerDereference
deriving DecidableEq

/-- The History field of a replication request behind its pointer. -/
structure HistoryObj where
  events : List HistoryEvent
deriving DecidableEq

/-- A replication request as ApplyEvents receives it: the request itself and
its History field are pointers, modelled as Options. -/
structure ReplicateEventsRequestPtr where
  workflowID : String
  runID : String
  sourceCluster : String
  version : Int
  firstEventID : Int
  nextEventID : Int
  history : Option HistoryObj
deriving DecidableEq

/-- What the entry of ApplyEvents decides to do with a request that reaches
the guard. -/
inductive EntryAction
  | droppedEmpty
  | proceed
deriving DecidableEq

/-- The entry of ApplyEvents from historyReplicator.go, lines 112-148, in
statement order: the logger fields (line 113) read request.WorkflowExecution
and therefore dereference the request pointer; the metrics timer (line 125)
reads len(request.History.Events) and therefore dereferences the History
pointer; only then is the guard of line 144 evaluated. -/
def applyEventsEntry (request : Option ReplicateEventsRequestPtr) :
    Except GoPanic EntryAction :=
  match request with
  | none => .error .nilPointerDereference
  | some req =>
    match req.history with
    | none => .error .nilPointerDereference
    | some hist =>
      if hist.events.isEmpty then .ok .droppedEmpty
      else .ok .proceed

end Replicator

namespace Timer

/-- Error kinds of the active timer processor. -/
inductive TimerErr
  | entityNotExists
  | conflict
  | maxAttemptsExceeded
  | timerNotFound
  | failedToAddTimerFired
  | internal (code : Nat)
deriving DecidableEq

/-- The closed set of timer task types. -/
inductive TaskType
  | userTimer
  | activityTimeout
  | decisionTimeout
  | workflowTimeout
  | retryTimer
  | deleteHistoryEvent
deriving DecidableEq

/-- The four activity timeout kinds. -/
inductive TimeoutKind
  | startToClose
  | scheduleToStart
  | scheduleToClose
  | heartbeat
deriving DecidableEq

/-- Outcome of the timerTaskFilter call at the top of process. -/
inductive FilterOutcome
  | failed (e : TimerErr)
  | rejected
  | accepted
deriving DecidableEq

/-- Collaborators of process: the ownership filter and the type-specific
handler dispatched to (its returned error). -/
structure ProcessEnv where
  filter : FilterOutcome
  handle : TaskType → Option TimerErr

/-- Observable outcome of process: the returned error, whether
completeTimerTask acked the task, and whether the failure metric was
incremented. -/
structure ProcessResult where
  err : Option TimerErr
  acked : Bool
  failureCounted : Bool
deriving DecidableEq

/-- process from the active timer processor, lines 164-220: a rejected task
is acked without work; an EntityNotExists handler error is swallowed and the
task acked; any other handler error leaves the task un-acked and counts a
failure; success acks. -/
def process (env : ProcessEnv) (taskType : TaskType) : ProcessResult :=
  match env.filter with
  | .failed e => ⟨some e, false, false⟩
  | .rejected => ⟨none, true, false⟩
  | .accepted =>
    match env.handle taskType with
    | some .entityNotExists => ⟨none, true, false⟩
    | some e => ⟨some e, false, true⟩
    | none => ⟨none, true, false⟩

/-- Modelled from the spec: the timer builder expiry test — a timer is
expired when the reference timestamp has reached its fire time. -/
def isTimerExpired (fireTime referenceTime : Int) : Bool :=
  fireTime ≤ referenceTime

/-- The in-memory user timer record looked up through GetUserTimer. The
addFiredOK flag is modelled from the spec: AddTimerFiredEvent returns nil
exactly when the timer is no longer pending. -/
structure UserTimerInfo where
  startedID : Int
  addFiredOK : Bool
deriving DecidableEq

/-- A user timer descriptor yielded by GetUserTimers in deadline order. -/
structure UserTimerDetail where
  timerID : String
  fireTime : Int
  taskCreated : Bool
deriving DecidableEq

/-- The slice of mutable state processExpiredUserTimer reads on one
attempt. -/
structure UserTimerMS where
  running : Bool
  userTimers : List UserTimerDetail
  timerByID : List (String × UserTimerInfo)
  hasPendingDecision : Bool
deriving DecidableEq

/-- What one pass over the user timers decided. -/
structure UserTimerScan where
  scheduleNewDecision : Bool
  timerTasksCreated : Nat
  firedTimerIDs : List String
deriving DecidableEq

/-- The ExpireUserTimers loop of processExpiredUserTimer, lines 246-276:
fire every expired timer in order; at the first non-expired timer create its
persisted task when missing and stop scanning. -/
def expireUserTimers (ms : UserTimerMS) (visibilityTimestamp : Int) :
    List UserTimerDetail → UserTimerScan → Except TimerErr UserTimerScan
  | [], st => .ok st
  | td :: rest, st =>
    match alookup ms.timerByID td.timerID with
    | none => .error .timerNotFound
    | some ti =>
      if isTimerExpired td.fireTime visibilityTimestamp then
        if ti.addFiredOK then
          expireUserTimers ms visibilityTimestamp rest
            { st with
              scheduleNewDecision := !ms.hasPendingDecision
              firedTimerIDs := st.firedTimerIDs ++ [td.timerID] }
        else .error .failedToAddTimerFired
      else
        .ok (if td.taskCreated then st else { st with timerTasksCreated := st.timerTasksCreated + 1 })

/-- The outcome of one optimistic-concurrency attempt seen through the
collaborators: the mutable-state load and the updateWorkflowExecution
commit. -/
structure UserTimerAttempt where
  load : Except TimerErr (Option UserTimerMS)
  updateResult : Option TimerErr

/-- Observable outcome of the Update_History_Loop: the returned error, the
number of loop iterations entered, and the number of commits attempted. -/
structure LoopResult where
  err : Option TimerErr
  attemptsUsed : Nat
  updatesAttempted : Nat
deriving DecidableEq

/-- The attempt loop of processExpiredUserTimer, lines 233-288: each
iteration reloads mutable state, returns nil when the workflow is gone or no
longer running, scans the user timers, commits, and loops again only when
the commit failed with Conflict; exhaustion yields ErrMaxAttemptsExceeded. -/
def processExpiredUserTimerAux (attempts : Nat → UserTimerAttempt)
    (visibilityTimestamp : Int) :
    Nat → Nat → Nat → LoopResult
  | 0, used, updates => ⟨some .maxAttemptsExceeded, used, updates⟩
  | remaining + 1, used, updates =>
    let a := attempts used
    match a.load with
    | .error e => ⟨some e, used + 1, updates⟩
    | .ok none => ⟨none, used + 1, updates⟩
    | .ok (some ms) =>
      if ms.running = false then ⟨none, used + 1, updates⟩
      else
        match expireUserTimers ms visibilityTimestamp ms.userTimers ⟨false, 0, []⟩ with
        | .error e => ⟨some e, used + 1, updates⟩
        | .ok _ =>
          match a.updateResult with
          | some .conflict =>
            processExpiredUserTimerAux attempts visibilityTimestamp remaining (used + 1) (updates + 1)
          | some e => ⟨some e, used + 1, updates + 1⟩
          | none => ⟨none, used + 1, updates + 1⟩

/-- processExpiredUserTimer entry: conditionalRetryCount attempts. -/
def processExpiredUserTimer (conditionalRetryCount : Nat)
    (attempts : Nat → UserTimerAttempt) (visibilityTimestamp : Int) : LoopResult :=
  processExpiredUserTimerAux attempts visibilityTimestamp conditionalRetryCount 0 0

/-- Modelled from the spec: the sentinel event ID meaning the activity has
not started (common.EmptyEventID; its concrete value is irrelevant here). -/
def emptyEventID : Int := -23

/-- Modelled from the spec: the timer-task-status bits of the activity timer
bitmask; the concrete values are irrelevant to the claims. -/
def timerTaskStatusCreatedStartToClose : Nat := 1

def timerTaskStatusCreatedScheduleToClose : Nat := 2

def timerTaskStatusCreatedScheduleToStart : Nat := 4

def timerTaskStatusCreatedHeartbeat : Nat := 8

/-- getActivityTimerStatus: the status bit for a timeout kind. -/
def getActivityTimerStatus : TimeoutKind → Nat
  | .startToClose => timerTaskStatusCreatedStartToClose
  | .scheduleToClose => timerTaskStatusCreatedScheduleToClose
  | .scheduleToStart => timerTaskStatusCreatedScheduleToStart
  | .heartbeat => timerTaskStatusCreatedHeartbeat

/-- A pending activity record, restricted to the fields
processActivityTimeout reads. -/
structure ActivityInfo where
  scheduleID : Int
  startedID : Int
  attempt : Nat
  details : Bytes
  timerTaskStatus : Nat
  lastTimeoutVisibility : Int
deriving DecidableEq

/-- An activity timer descriptor yielded by GetActivityTimers in
sequence-ID order. -/
structure ActivityTimerDetail where
  activityID : Int
  timeoutKind : TimeoutKind
  attempt : Nat
  fireTime : Int
  taskCreated : Bool
  sequenceVisibility : Int
deriving DecidableEq

/-- An ActivityTaskTimedOut event as emitted by
AddActivityTaskTimedOutEvent. -/
structure TimedOutEvent where
  scheduleID : Int
  startedID : Int
  timeoutKind : TimeoutKind
  details : Bytes
deriving DecidableEq

/-- The slice of mutable state processActivityTimeout reads on one
attempt. -/
structure ActivityMS where
  running : Bool
  activities : List (Int × ActivityInfo)
  activityTimers : List ActivityTimerDetail
  hasPendingDecision : Bool
deriving DecidableEq

/-- Accumulated outcome of the ExpireActivityTimers pass: the (mutated)
pending-activity map, the timed-out events appended to history, the number
of new timer tasks queued, and the updateHistory / createNewTimer flags. -/
structure ActivityScanState where
  activities : List (Int × ActivityInfo)
  timedOutEvents : List TimedOutEvent
  newTimerTasks : Nat
  updateHistory : Bool
  createNewTimer : Bool
deriving DecidableEq

/-- Appending one ActivityTaskTimedOut event (modelled from the spec:
AddActivityTaskTimedOutEvent succeeds for the pending activity just looked
up). -/
def emitTimedOut (st : ActivityScanState) (ai : ActivityInfo) (kind : TimeoutKind)
    (details : Bytes) : ActivityScanState :=
  { st with
    timedOutEvents := st.timedOutEvents ++ [⟨ai.scheduleID, ai.startedID, kind, details⟩]
    updateHistory := true }

/-- The ExpireActivityTimers loop of processActivityTimeout, lines 334-429.
For each descriptor in order: skip activities no longer pending; for an
expired timer, skip superseded attempts unless the kind is ScheduleToClose,
try CreateRetryTimer first for every kind except ScheduleToStart, and
otherwise emit the timed-out event according to the kind (ScheduleToClose
always, StartToClose only if started, Heartbeat with the recorded details,
ScheduleToStart only if never started); at the first non-expired timer
create its persisted task when missing and stop scanning. CreateRetryTimer
is modelled from the spec: it yields a task while retry budget remains and
increments the attempt count of the activity. -/
def expireActivityTimers (createRetryTimer : ActivityInfo → Option Int)
    (referenceTime : Int) :
    List ActivityTimerDetail → ActivityScanState → ActivityScanState
  | [], st => st
  | td :: rest, st =>
    match alookup st.activities td.activityID with
    | none => expireActivityTimers createRetryTimer referenceTime rest st
    | some ai =>
      if isTimerExpired td.fireTime referenceTime then
        if td.attempt < ai.attempt ∧ td.timeoutKind ≠ .scheduleToClose then
          expireActivityTimers createRetryTimer referenceTime rest st
        else if td.timeoutKind ≠ .scheduleToStart ∧ (createRetryTimer ai).isSome then
          expireActivityTimers createRetryTimer referenceTime rest
            { st with
              activities := aupdate st.activities td.activityID { ai with attempt := ai.attempt + 1 }
              newTimerTasks := st.newTimerTasks + 1
              createNewTimer := true }
        else
          match td.timeoutKind with
          | .scheduleToClose =>
            expireActivityTimers createRetryTimer referenceTime rest (emitTimedOut st ai .scheduleToClose [])
          | .startToClose =>
            if ai.startedID = emptyEventID then
              expireActivityTimers createRetryTimer referenceTime rest st
            else
              expireActivityTimers createRetryTimer referenceTime rest (emitTimedOut st ai .startToClose [])
          | .heartbeat =>
            expireActivityTimers createRetryTimer referenceTime rest (emitTimedOut st ai .heartbeat ai.details)
          | .scheduleToStart =>
            if ai.startedID = emptyEventID then
              expireActivityTimers createRetryTimer referenceTime rest (emitTimedOut st ai .scheduleToStart [])
            else
              expireActivityTimers createRetryTimer referenceTime rest st
      else
        if td.taskCreated then st
        else
          { st with
            activities := aupdate st.activities td.activityID
              { ai with
                timerTaskStatus := ai.timerTaskStatus ||| getActivityTimerStatus td.timeoutKind
                lastTimeoutVisibility := td.sequenceVisibility }
            newTimerTasks := st.newTimerTasks + 1
            createNewTimer := true }

/-- The fields of a persisted activity timer task processActivityTimeout
reads. -/
structure TimerTaskRec where
  eventID : Int
  timeoutKind : TimeoutKind
  visibilityTimestamp : Int
deriving DecidableEq

/-- The outcome of one optimistic-concurrency attempt of
processActivityTimeout seen through the collaborators. -/
structure ActivityAttempt where
  load : Except TimerErr (Option ActivityMS)
  updateResult : Option TimerErr

/-- Collaborators of processActivityTimeout: the shard current time (t.now),
the CreateRetryTimer policy, and the per-attempt load / commit outcomes. -/
structure ActivityTimeoutEnv where
  shardNow : Int
  createRetryTimer : ActivityInfo → Option Int
  attempts : Nat → ActivityAttempt

/-- Observable outcome of processActivityTimeout: the returned error, the
number of loop iterations entered, and the scan outcomes of the iterations
in order. -/
structure ActivityLoopResult where
  err : Option TimerErr
  attemptsUsed : Nat
  scans : List ActivityScanState
deriving DecidableEq

/-- The heartbeat pre-step of processActivityTimeout, lines 313-328: when
the fired task is a heartbeat task and the recorded last timeout visibility
is not newer than the task visibility, the created-heartbeat status bit is
cleared so the next heartbeat timer can be created. -/
def heartbeatPreStep (ms : ActivityMS) (task : TimerTaskRec) : ActivityMS :=
  match alookup ms.activities task.eventID with
  | none => ms
  | some ai =>
    if task.timeoutKind = .heartbeat ∧ ai.lastTimeoutVisibility ≤ task.visibilityTimestamp then
      { ms with
        activities := aupdate ms.activities task.eventID
          { ai with
            timerTaskStatus :=
              ai.timerTaskStatus - (ai.timerTaskStatus &&& timerTaskStatusCreatedHeartbeat) } }
    else ms

/-- The attempt loop of processActivityTimeout, lines 303-448: reload, stop
with success when the workflow is gone or not running, run the heartbeat
pre-step and the activity timer scan against the shard current time, and
commit only when there is something to persist; the loop continues only on
Conflict, and a non-Conflict commit error is swallowed (the source returns
nil after notifying timers). -/
def processActivityTimeoutAux (env : ActivityTimeoutEnv) (task : TimerTaskRec) :
    Nat → Nat → List ActivityScanState → ActivityLoopResult
  | 0, used, scans => ⟨some .maxAttemptsExceeded, used, scans⟩
  | remaining + 1, used, scans =>
    let a := env.attempts used
    match a.load with
    | .error e => ⟨some e, used + 1, scans⟩
    | .ok none => ⟨none, used + 1, scans⟩
    | .ok (some ms0) =>
      if ms0.running = false then ⟨none, used + 1, scans⟩
      else
        let ms := heartbeatPreStep ms0 task
        let st := expireActivityTimers env.createRetryTimer env.shardNow ms.activityTimers
          ⟨ms.activities, [], 0, false, false⟩
        if st.updateHistory ∨ st.createNewTimer then
          match a.updateResult with
          | some .conflict =>
            processActivityTimeoutAux env task remaining (used + 1) (scans ++ [st])
          | _ => ⟨none, used + 1, scans ++ [st]⟩
        else ⟨none, used + 1, scans ++ [st]⟩

/-- processActivityTimeout entry: conditionalRetryCount attempts evaluated
against the shard current time env.shardNow. -/
def processActivityTimeout (conditionalRetryCount : Nat) (env : ActivityTimeoutEnv)
    (task : TimerTaskRec) : ActivityLoopResult :=
  processActivityTimeoutAux env task conditionalRetryCount 0 []

end Timer

/-! Theorems. -/

theorem aerase_length_le {κ α : Type} [DecidableEq κ] (m : List (κ × α)) (k : κ) :
    (aerase m k).length ≤ m.length := by
  induction m with
  | nil => simp [aerase]
  | cons p rest ih =>
    by_cases hk : p.1 = k
    · simp only [aerase, if_pos hk, List.length_cons]
      exact Nat.le_succ_of_le ih
    · simp only [aerase, if_neg hk, List.length_cons]
      exact Nat.succ_le_succ ih

theorem aerase_length_lt {κ α : Type} [DecidableEq κ] (m : List (κ × α)) (k : κ) (v : α)
    (h : alookup m k = some v) : (aerase m k).length < m.length := by
  induction m with
  | nil => simp [alookup] at h
  | cons p rest ih =>
    by_cases hk : p.1 = k
    · simp only [aerase, if_pos hk, List.length_cons]
      exact Nat.lt_succ_of_le (aerase_length_le rest k)
    · simp only [alookup, if_neg hk] at h
      simp only [aerase, if_neg hk, List.length_cons]
      exact Nat.succ_lt_succ (ih h)

theorem alookup_aupdate {κ α : Type} [DecidableEq κ] (m : List (κ × α)) (k : κ) (v : α) :
    alookup (aupdate m k v) k = some v := by
  simp [aupdate, alookup]

namespace Persistence

theorem filterHistoryRows_version_ge (v : Int) (rows : List HistoryRow) :
    ∀ r ∈ (filterHistoryRows v rows).2, v ≤ r.eventBatchVersion := by
  induction rows generalizing v with
  | nil => intro r hr; simp [filterHistoryRows] at hr
  | cons p rest ih =>
    intro r hr
    by_cases hv : v ≤ p.eventBatchVersion
    · simp only [filterHistoryRows, if_pos hv] at hr
      rcases List.mem_cons.mp hr with h | h
      · exact h ▸ hv
      · exact le_trans hv (ih p.eventBatchVersion r h)
    · simp only [filterHistoryRows, if_neg hv] at hr
      exact ih v r hr

theorem filterHistoryRows_mem (v : Int) (rows : List HistoryRow) :
    ∀ r ∈ (filterHistoryRows v rows).2, r ∈ rows := by
  induction rows generalizing v with
  | nil => intro r hr; simp [filterHistoryRows] at hr
  | cons p rest ih =>
    intro r hr
    by_cases hv : v ≤ p.eventBatchVersion
    · simp only [filterHistoryRows, if_pos hv] at hr
      rcases List.mem_cons.mp hr with h | h
      · exact h ▸ List.mem_cons_self p rest
      · exact List.mem_cons_of_mem p (ih p.eventBatchVersion r h)
    · simp only [filterHistoryRows, if_neg hv] at hr
      exact List.mem_cons_of_mem p (ih v r hr)

/-- Claim C7: GetWorkflowExecutionHistory returns only event batches whose
event_batch_version is at least the LastEventBatchVersion carried in the
incoming page token, and (when the iterator closes cleanly) it fails with
EntityNotExists exactly when no rows were scanned and the request carried no
page token. -/
theorem c7_getWorkflowExecutionHistory (req : GetHistoryRequest) (iter : QueryIteration)
    (hclose : iter.closeFailed = false) :
    (∀ resp, getWorkflowExecutionHistory req iter = .ok resp →
      ∀ b ∈ resp.events, ∃ r, r ∈ iter.rows ∧ r.batch = b ∧
        (deserializeToken req.nextPageToken).lastEventBatchVersion ≤ r.eventBatchVersion)
  ∧ (getWorkflowExecutionHistory req iter = .error .entityNotExists ↔
      iter.rows = [] ∧ req.nextPageToken = []) := by
  constructor
  · intro resp hresp b hb
    unfold getWorkflowExecutionHistory at hresp
    simp only [hclose, Bool.false_eq_true, if_false] at hresp
    by_cases hcond : (iter.rows.isEmpty && req.nextPageToken.isEmpty) = true
    · rw [if_pos hcond] at hresp
      cases hresp
    · rw [if_neg hcond] at hresp
      cases hresp
      obtain ⟨r, hrmem, hrb⟩ := List.mem_map.mp hb
      exact ⟨r, filterHistoryRows_mem _ _ r hrmem, hrb,
        filterHistoryRows_version_ge _ _ r hrmem⟩
  · have key : getWorkflowExecutionHistory req iter = .error .entityNotExists ↔
        (iter.rows.isEmpty && req.nextPageToken.isEmpty) = true := by
      unfold getWorkflowExecutionHistory
      simp only [hclose, Bool.false_eq_true, if_false]
      by_cases hcond : (iter.rows.isEmpty && req.nextPageToken.isEmpty) = true
      · simp [hcond]
      · simp [hcond]
    rw [key, Bool.and_eq_true, List.isEmpty_iff, List.isEmpty_iff]

/-- Claim C7 witness: on a first page with no rows the call reports
EntityNotExists. -/
theorem c7_witness :
    getWorkflowExecutionHistory ⟨"d", "w", "r", 1, 5, 10, []⟩ ⟨[], [], false⟩ =
      .error .entityNotExists :=
  (c7_getWorkflowExecutionHistory ⟨"d", "w", "r", 1, 5, 10, []⟩ ⟨[], [], false⟩ rfl).2.mpr
    ⟨rfl, rfl⟩

/-- Claim C8 counterexample: a token with an empty cursor and a
LastEventBatchVersion different from the sentinel does not survive the
round trip, because serializeToken collapses every empty-cursor token to
nil. -/
theorem c8_counterexample :
    (deserializeToken (serializeToken ⟨emptyVersion + 1, []⟩)).lastEventBatchVersion ≠
      (emptyVersion + 1) := by
  decide

/-- Claim C8 amended: for every history page token whose cursor is
non-empty, deserializing the result of serializing it yields the token back,
with equal LastEventBatchVersion and equal cursor bytes. -/
theorem c8_amended_roundtrip (t : HistoryToken) (h : t.data ≠ []) :
    deserializeToken (serializeToken t) = t := by
  cases t with
  | mk v d =>
    simp only [serializeToken] at *
    rw [if_neg h]
    simp [deserializeToken, marshalToken, unmarshalToken]

/-- Claim C8 amended witness. -/
theorem c8_amended_witness :
    deserializeToken (serializeToken ⟨5, [1, 2]⟩) = ⟨5, [1, 2]⟩ :=
  c8_amended_roundtrip ⟨5, [1, 2]⟩ (by decide)

end Persistence

namespace Replicator

/-- Claim C1: the version-checking gate of ApplyOtherEventsVersionChecking:
a higher local lastWriteVersion drops the request with no error and no
mutation; an equal version returns the mutable state unchanged; a lower
version consults the replicationInfo entry of the previous active cluster —
a missing entry proceeds unchanged exactly on failover-version congruence
and otherwise fails with MissingReplicationInfo, an entry ahead of the local
lastWriteEventID fails with CorruptedReplicationInfo, and an entry behind it
runs conflict resolution, resetting to the entry lastEventID with the fresh
runID and the original start timestamp. -/
theorem c1_applyOtherEventsVersionChecking (cm : ClusterMetadata)
    (cr : ConflictResolutionEnv) (ms : MutableState) (request : ReplicateEventsRequest) :
    (request.version < ms.replicationState.lastWriteVersion →
      applyOtherEventsVersionChecking cm cr ms request = (none, none))
  ∧ (ms.replicationState.lastWriteVersion = request.version →
      applyOtherEventsVersionChecking cm cr ms request = (some ms, none))
  ∧ (ms.replicationState.lastWriteVersion < request.version →
      (alookup request.replicationInfo
          (cm.clusterNameForFailoverVersion ms.replicationState.lastWriteVersion) = none →
        (cm.isVersionFromSameCluster request.version ms.replicationState.lastWriteVersion = true →
          applyOtherEventsVersionChecking cm cr ms request = (some ms, none))
        ∧ (cm.isVersionFromSameCluster request.version ms.replicationState.lastWriteVersion = false →
          applyOtherEventsVersionChecking cm cr ms request =
            (none, some .missingReplicationInfo)))
      ∧ (∀ ri, alookup request.replicationInfo
          (cm.clusterNameForFailoverVersion ms.replicationState.lastWriteVersion) = some ri →
        (ms.replicationState.lastWriteEventID < ri.lastEventID →
          applyOtherEventsVersionChecking cm cr ms request =
            (none, some .corruptedReplicationInfo))
        ∧ (ri.lastEventID < ms.replicationState.lastWriteEventID →
            cr.terminateContinueAsNew = none →
          (∀ ms2, cr.resolverReset cr.freshRunID ri.lastEventID
              ms.executionInfo.startTimestamp = .ok ms2 →
            applyOtherEventsVersionChecking cm cr ms request = (some ms2, none))
          ∧ (∀ e, cr.resolverReset cr.freshRunID ri.lastEventID
              ms.executionInfo.startTimestamp = .error e →
            applyOtherEventsVersionChecking cm cr ms request = (none, some e))))) := by
  refine ⟨?_, ?_, ?_⟩
  · intro h
    simp only [applyOtherEventsVersionChecking, if_pos h]
  · intro h
    have h1 : ¬ request.version < ms.replicationState.lastWriteVersion := by omega
    simp only [applyOtherEventsVersionChecking, if_neg h1, if_pos h]
  · intro hlt
    have h1 : ¬ request.version < ms.replicationState.lastWriteVersion := by omega
    have h2 : ¬ ms.replicationState.lastWriteVersion = request.version := by omega
    constructor
    · intro hlk
      simp only [applyOtherEventsVersionChecking, if_neg h1, if_neg h2, hlk]
      constructor
      · intro hsame
        simp [hsame]
      · intro hsame
        simp [hsame]
    · intro ri hlk
      simp only [applyOtherEventsVersionChecking, if_neg h1, if_neg h2, hlk]
      constructor
      · intro h3
        simp [if_pos h3]
      · intro h3 hterm
        have h4 : ¬ ms.replicationState.lastWriteEventID < ri.lastEventID := by omega
        simp only [if_neg h4, if_pos h3, hterm]
        constructor
        · intro ms2 hreset
          simp [hreset]
        · intro e hreset
          simp [hreset]

/-- Claim C1 witness: the corrupted-replication-info branch at a concrete
input. -/
theorem c1_witness :
    applyOtherEventsVersionChecking
      ⟨fun _ => "prev", fun _ _ => false⟩
      ⟨none, "fresh", fun _ _ _ => .error (.internal 0)⟩
      ⟨⟨"d", "w", "r", 3, 51⟩, ⟨10, 10, 10, 50⟩, []⟩
      ⟨"src", "d", "w", "r", 51, 53, 11, [("prev", ⟨11, 60⟩)], [], [], false⟩ =
      (none, some .corruptedReplicationInfo) :=
  (((c1_applyOtherEventsVersionChecking
      ⟨fun _ => "prev", fun _ _ => false⟩
      ⟨none, "fresh", fun _ _ _ => .error (.internal 0)⟩
      ⟨⟨"d", "w", "r", 3, 51⟩, ⟨10, 10, 10, 50⟩, []⟩
      ⟨"src", "d", "w", "r", 51, 53, 11, [("prev", ⟨11, 60⟩)], [], [], false⟩).2.2
    (by decide)).2 ⟨11, 60⟩ (by decide)).1 (by decide)

/-- Claim C2: ApplyOtherEvents drops a duplicate batch with no error and no
mutation; refuses an out-of-order batch with RetryBufferEvents when
forceBufferEvents is unset; with forceBufferEvents set it stores the batch
in the buffered-replication-task map keyed by firstEventID and persists it
through a single updateHelper call with the replication-task flag off and
the commit timestamp taken from the last event, advancing neither
nextEventID nor the replication state; and it applies an in-order batch and
then flushes the buffer. -/
theorem c2_applyOtherEvents (env : ReplicatorEnv) (ms : MutableState)
    (request : ReplicateEventsRequest) :
    (request.firstEventID < ms.nextEventID →
      applyOtherEvents env ms request = ⟨ms, none, [], false, false⟩)
  ∧ (ms.nextEventID < request.firstEventID → request.forceBufferEvents = false →
      applyOtherEvents env ms request = ⟨ms, some .retryBufferEvents, [], false, false⟩)
  ∧ (∀ tx, ms.nextEventID < request.firstEventID → request.forceBufferEvents = true →
      ms.bufferedReplicationTasks.length < env.bufferCapacity →
      env.getNextTransferTaskID = .ok tx →
      applyOtherEvents env ms request =
        ⟨{ ms with bufferedReplicationTasks := (aupdate ms.bufferedReplicationTasks
            request.firstEventID ⟨request.firstEventID, request.nextEventID, request.version,
              request.history, request.newRunHistory⟩) },
          env.updateHelper ⟨tx, lastEventTimestamp request.history, false,
            env.clusterMetadata.clusterNameForFailoverVersion ms.replicationState.lastWriteVersion⟩,
          [⟨tx, lastEventTimestamp request.history, false,
            env.clusterMetadata.clusterNameForFailoverVersion ms.replicationState.lastWriteVersion⟩],
          false, false⟩
      ∧ (applyOtherEvents env ms request).ms.nextEventID = ms.nextEventID
      ∧ (applyOtherEvents env ms request).ms.replicationState = ms.replicationState
      ∧ alookup (applyOtherEvents env ms request).ms.bufferedReplicationTasks
          request.firstEventID = some ⟨request.firstEventID, request.nextEventID,
            request.version, request.history, request.newRunHistory⟩)
  ∧ (request.firstEventID = ms.nextEventID → ∀ ms1,
      env.applyReplicationTask ms request = .ok ms1 →
      (applyOtherEvents env ms request).applied = true
      ∧ (applyOtherEvents env ms request).flushed = true
      ∧ ∀ ms2, flushBuffer env ms1 = some (.ok ms2) →
          applyOtherEvents env ms request = ⟨ms2, none, [], true, true⟩) := by
  refine ⟨?_, ?_, ?_, ?_⟩
  · intro h
    simp only [applyOtherEvents, if_pos h]
  · intro h hforce
    have h1 : ¬ request.firstEventID < ms.nextEventID := by
      simp only [MutableState.nextEventID] at h ⊢
      omega
    simp only [applyOtherEvents, if_neg h1, if_pos h, hforce]
    exact if_pos trivial
  · intro tx h hforce hcap htx
    have h1 : ¬ request.firstEventID < ms.nextEventID := by
      simp only [MutableState.nextEventID] at h ⊢
      omega
    have h2 : ¬ (request.forceBufferEvents = false) := by simp [hforce]
    have h3 : ¬ (env.bufferCapacity ≤ ms.bufferedReplicationTasks.length) := by omega
    have heq : applyOtherEvents env ms request =
        ⟨{ ms with bufferedReplicationTasks := (aupdate ms.bufferedReplicationTasks
            request.firstEventID ⟨request.firstEventID, request.nextEventID, request.version,
              request.history, request.newRunHistory⟩) },
          env.updateHelper ⟨tx, lastEventTimestamp request.history, false,
            env.clusterMetadata.clusterNameForFailoverVersion ms.replicationState.lastWriteVersion⟩,
          [⟨tx, lastEventTimestamp request.history, false,
            env.clusterMetadata.clusterNameForFailoverVersion ms.replicationState.lastWriteVersion⟩],
          false, false⟩ := by
      simp only [applyOtherEvents, if_neg h1, if_pos h, if_neg h2, bufferReplicationTask,
        if_neg h3, htx]
    refine ⟨heq, ?_, ?_, ?_⟩
    · rw [heq]
      simp [MutableState.nextEventID]
    · rw [heq]
    · rw [heq]
      exact alookup_aupdate ms.bufferedReplicationTasks request.firstEventID _
  · intro heq ms1 happ
    have h1 : ¬ request.firstEventID < ms.nextEventID := by omega
    have h2 : ¬ ms.nextEventID < request.firstEventID := by omega
    refine ⟨?_, ?_, ?_⟩
    · simp only [applyOtherEvents, if_neg h1, if_neg h2, happ]
      cases hfb : flushBuffer env ms1 with
      | none => rfl
      | some r => cases r <;> rfl
    · simp only [applyOtherEvents, if_neg h1, if_neg h2, happ]
      cases hfb : flushBuffer env ms1 with
      | none => rfl
      | some r => cases r <;> rfl
    · intro ms2 hflush
      simp only [applyOtherEvents, if_neg h1, if_neg h2, happ, hflush]

/-- Claim C2 witness: an out-of-order batch with forceBufferEvents unset is
refused with RetryBufferEvents and no mutation. -/
theorem c2_witness :
    applyOtherEvents
      ⟨⟨fun _ => "c", fun _ _ => true⟩, .ok 1, 10, fun ms _ => .ok ms, fun _ => none⟩
      ⟨⟨"d", "w", "r", 0, 10⟩, ⟨1, 1, 1, 9⟩, []⟩
      ⟨"src", "d", "w", "r", 12, 15, 1, [], [], [], false⟩ =
      ⟨⟨⟨"d", "w", "r", 0, 10⟩, ⟨1, 1, 1, 9⟩, []⟩, some .retryBufferEvents, [], false, false⟩ :=
  (c2_applyOtherEvents
      ⟨⟨fun _ => "c", fun _ _ => true⟩, .ok 1, 10, fun ms _ => .ok ms, fun _ => none⟩
      ⟨⟨"d", "w", "r", 0, 10⟩, ⟨1, 1, 1, 9⟩, []⟩
      ⟨"src", "d", "w", "r", 12, 15, 1, [], [], [], false⟩).2.1 (by decide) rfl

theorem flushBufferAux_fuel_sufficient (env : ReplicatorEnv)
    (happly : ∀ ms req ms2, env.applyReplicationTask ms req = .ok ms2 →
      ms2.bufferedReplicationTasks.length ≤ ms.bufferedReplicationTasks.length)
    (d w r : String) :
    ∀ fuel ms, ms.bufferedReplicationTasks.length < fuel →
      flushBufferAux env d w r fuel ms ≠ none := by
  intro fuel
  induction fuel with
  | zero =>
    intro ms h
    exact absurd h (Nat.not_lt_zero _)
  | succ n ih =>
    intro ms h
    simp only [flushBufferAux]
    by_cases he : ms.bufferedReplicationTasks.isEmpty
    · simp [he]
    · simp only [he, Bool.false_eq_true, if_false]
      cases hlk : alookup ms.bufferedReplicationTasks ms.nextEventID with
      | none => simp
      | some bt =>
        simp only []
        cases happ2 : env.applyReplicationTask
            { ms with bufferedReplicationTasks :=
                aerase ms.bufferedReplicationTasks ms.nextEventID }
            (mkBufferedRequest env d w r bt) with
        | error e => simp
        | ok ms2 =>
          have hlt := aerase_length_lt ms.bufferedReplicationTasks ms.nextEventID bt hlk
          have hle := happly _ _ _ happ2
          simp only [] at hle
          exact ih ms2 (by omega)

/-- Claim C9: FlushBuffer terminates on every finite buffer — every loop
pass either returns or first deletes the batch keyed by the current
nextEventID, so the buffer strictly shrinks; the hypothesis records that
ApplyReplicationTask never grows the buffered-replication-task map, which
holds of the source since applying a batch never calls
BufferReplicationTask. -/
theorem c9_flushBuffer_terminates (env : ReplicatorEnv)
    (happly : ∀ ms req ms2, env.applyReplicationTask ms req = .ok ms2 →
      ms2.bufferedReplicationTasks.length ≤ ms.bufferedReplicationTasks.length)
    (ms : MutableState) :
    flushBuffer env ms ≠ none :=
  flushBufferAux_fuel_sufficient env happly ms.executionInfo.domainID
    ms.executionInfo.workflowID ms.executionInfo.runID
    (ms.bufferedReplicationTasks.length + 1) ms (Nat.lt_succ_self _)

/-- Claim C9 witness: a one-element buffer keyed at the current nextEventID
is flushed within the allotted fuel. -/
theorem c9_witness :
    flushBuffer
      ⟨⟨fun _ => "c", fun _ _ => true⟩, .ok 1, 10, fun ms _ => .ok ms, fun _ => none⟩
      ⟨⟨"d", "w", "r", 0, 5⟩, ⟨1, 1, 1, 4⟩, [(5, ⟨5, 7, 1, [], []⟩)]⟩ ≠ none :=
  c9_flushBuffer_terminates
    ⟨⟨fun _ => "c", fun _ _ => true⟩, .ok 1, 10, fun ms _ => .ok ms, fun _ => none⟩
    (by
      intro ms req ms2 h
      cases h
      exact Nat.le_refl _)
    ⟨⟨"d", "w", "r", 0, 5⟩, ⟨1, 1, 1, 4⟩, [(5, ⟨5, 7, 1, [], []⟩)]⟩

/-- Claim C3: the AlreadyStarted handling of replicateWorkflowStarted: a
matching current runID drops the task; a completed current run drops (and
deletes the appended history) when its start version is higher, otherwise
the workflow is created with PreviousRunID = currentRunID; a running current
run drops stale on a higher start version, flushes the current workflow
buffer and returns RetryExistingWorkflow on an equal version, and on a lower
version terminates the running workflow and creates the new run with
PreviousRunID = currentRunID. -/
theorem c3_replicateWorkflowStarted (env : StartReplicationEnv) (incomingRunID : String)
    (incomingVersion : Int) (cur : String) (st : WorkflowState) (v : Int)
    (hser : env.serializeHistory = none)
    (htx : ∃ t, env.getNextTransferTaskID = .ok t)
    (happend : env.appendHistoryEvents = none)
    (hcreate : env.createWorkflow true "" = some (.alreadyStarted cur st v)) :
    (cur = incomingRunID →
      replicateWorkflowStarted env incomingRunID incomingVersion =
        ⟨none, true, false, [(true, "")], false, false⟩)
  ∧ (cur ≠ incomingRunID → st = .completed → incomingVersion < v →
      replicateWorkflowStarted env incomingRunID incomingVersion =
        ⟨none, true, true, [(true, "")], false, false⟩)
  ∧ (cur ≠ incomingRunID → st = .completed → v ≤ incomingVersion →
      replicateWorkflowStarted env incomingRunID incomingVersion =
        createWithPreviousRunID env cur false
      ∧ (env.createWorkflow false cur = none →
          replicateWorkflowStarted env incomingRunID incomingVersion =
            ⟨none, true, false, [(true, ""), (false, cur)], false, false⟩))
  ∧ (cur ≠ incomingRunID → st = .running → incomingVersion < v →
      replicateWorkflowStarted env incomingRunID incomingVersion =
        ⟨none, true, true, [(true, "")], false, false⟩)
  ∧ (cur ≠ incomingRunID → st = .running → v = incomingVersion →
      env.flushCurrentWorkflowBuffer = none →
      replicateWorkflowStarted env incomingRunID incomingVersion =
        ⟨some .retryExistingWorkflow, true, false, [(true, "")], false, true⟩)
  ∧ (cur ≠ incomingRunID → st = .running → v < incomingVersion →
      env.terminateWorkflow = none →
      replicateWorkflowStarted env incomingRunID incomingVersion =
        createWithPreviousRunID env cur true
      ∧ (env.createWorkflow false cur = none →
          replicateWorkflowStarted env incomingRunID incomingVersion =
            ⟨none, true, false, [(true, ""), (false, cur)], true, false⟩)) := by
  obtain ⟨t, htx⟩ := htx
  refine ⟨?_, ?_, ?_, ?_, ?_, ?_⟩
  · intro hc
    simp [replicateWorkflowStarted, hser, htx, happend, hcreate, hc]
  · intro hc hst hv
    simp [replicateWorkflowStarted, hser, htx, happend, hcreate, hc, hst, hv]
  · intro hc hst hv
    have hv2 : ¬ incomingVersion < v := by omega
    have heq : replicateWorkflowStarted env incomingRunID incomingVersion =
        createWithPreviousRunID env cur false := by
      simp [replicateWorkflowStarted, hser, htx, happend, hcreate, hc, hst, hv2]
    refine ⟨heq, ?_⟩
    intro hc2
    rw [heq]
    simp [createWithPreviousRunID, hc2]
  · intro hc hst hv
    subst hst
    simp [replicateWorkflowStarted, hser, htx, happend, hcreate, hc, hv]
  · intro hc hst hv hflush
    subst hst
    have hv2 : ¬ incomingVersion < v := by omega
    simp [replicateWorkflowStarted, hser, htx, happend, hcreate, hc, hv, hv2, hflush]
  · intro hc hst hv hterm
    subst hst
    have hv2 : ¬ incomingVersion < v := by omega
    have hv3 : ¬ v = incomingVersion := by omega
    have heq : replicateWorkflowStarted env incomingRunID incomingVersion =
        createWithPreviousRunID env cur true := by
      simp [replicateWorkflowStarted, hser, htx, happend, hcreate, hc, hv2, hv3, hterm]
    refine ⟨heq, ?_⟩
    intro hc2
    rw [heq]
    simp [createWithPreviousRunID, hc2]

/-- Claim C3 witness: an equal-version running current workflow makes the
call flush the current buffer and return RetryExistingWorkflow. -/
theorem c3_witness :
    replicateWorkflowStarted
      ⟨none, .ok 1, none,
        fun isBrandNew _ =>
          if isBrandNew then some (.alreadyStarted "cur" .running 8) else none,
        none, none⟩ "inc" 8 =
      ⟨some .retryExistingWorkflow, true, false, [(true, "")], false, true⟩ :=
  (c3_replicateWorkflowStarted
      ⟨none, .ok 1, none,
        fun isBrandNew _ =>
          if isBrandNew then some (.alreadyStarted "cur" .running 8) else none,
        none, none⟩ "inc" 8 "cur" .running 8 rfl ⟨1, rfl⟩ rfl rfl).2.2.2.2.1
    (by decide) rfl rfl rfl

/-- Claim C6 counterexample: with a completed lower-version current run, a
failure of the second createWorkflow call (a non-AlreadyStarted persistence
error reached after the history append succeeded) is returned without
deleting the appended history, so not every error path after a successful
append deletes the batch. -/
theorem c6_counterexample :
    (replicateWorkflowStarted
      ⟨none, .ok 1, none,
        fun isBrandNew _ =>
          if isBrandNew then some (.alreadyStarted "cur" .completed 5)
          else some (.other (.internal 7)),
        none, none⟩ "inc" 9).err = some (.internal 7)
  ∧ (replicateWorkflowStarted
      ⟨none, .ok 1, none,
        fun isBrandNew _ =>
          if isBrandNew then some (.alreadyStarted "cur" .completed 5)
          else some (.other (.internal 7)),
        none, none⟩ "inc" 9).historyAppended = true
  ∧ (replicateWorkflowStarted
      ⟨none, .ok 1, none,
        fun isBrandNew _ =>
          if isBrandNew then some (.alreadyStarted "cur" .completed 5)
          else some (.other (.internal 7)),
        none, none⟩ "inc" 9).historyDeleted = false := by
  refine ⟨rfl, rfl, rfl⟩

/-- Claim C6 amended: after a successful history append during start-event
replication, the appended batch is deleted when the brand-new creation
attempt fails with a non-AlreadyStarted error and on every drop-stale branch
of the AlreadyStarted handling; on the remaining error paths (the retry
sentinel of the equal-version branch, and flush, terminate or second-create
failures) the appended history is left in place. -/
theorem c6_amended (env : StartReplicationEnv) (incomingRunID : String)
    (incomingVersion : Int)
    (hser : env.serializeHistory = none)
    (htx : ∃ t, env.getNextTransferTaskID = .ok t)
    (happend : env.appendHistoryEvents = none) :
    (∀ e, env.createWorkflow true "" = some (.other e) →
      replicateWorkflowStarted env incomingRunID incomingVersion =
        ⟨some e, true, true, [(true, "")], false, false⟩)
  ∧ (∀ cur st v, env.createWorkflow true "" = some (.alreadyStarted cur st v) →
      cur ≠ incomingRunID → incomingVersion < v →
      (replicateWorkflowStarted env incomingRunID incomingVersion).historyDeleted = true
      ∧ (replicateWorkflowStarted env incomingRunID incomingVersion).err = none)
  ∧ (∀ cur st v, env.createWorkflow true "" = some (.alreadyStarted cur st v) →
      cur ≠ incomingRunID → st = .running → v = incomingVersion →
      env.flushCurrentWorkflowBuffer = none →
      (replicateWorkflowStarted env incomingRunID incomingVersion).historyDeleted = false) := by
  obtain ⟨t, htx⟩ := htx
  refine ⟨?_, ?_, ?_⟩
  · intro e hcreate
    simp [replicateWorkflowStarted, hser, htx, happend, hcreate]
  · intro cur st v hcreate hc hv
    by_cases hst : st = .completed
    · constructor
      · simp [replicateWorkflowStarted, hser, htx, happend, hcreate, hc, hst, hv]
      · simp [replicateWorkflowStarted, hser, htx, happend, hcreate, hc, hst, hv]
    · constructor
      · simp [replicateWorkflowStarted, hser, htx, happend, hcreate, hc, hst, hv]
      · simp [replicateWorkflowStarted, hser, htx, happend, hcreate, hc, hst, hv]
  · intro cur st v hcreate hc hst hv hflush
    subst hst
    have hv2 : ¬ incomingVersion < v := by omega
    simp [replicateWorkflowStarted, hser, htx, happend, hcreate, hc, hv, hv2, hflush]

/-- Claim C6 amended witness: a stale completed current run deletes the
appended history and drops the task. -/
theorem c6_amended_witness :
    (replicateWorkflowStarted
      ⟨none, .ok 1, none,
        fun isBrandNew _ =>
          if isBrandNew then some (.alreadyStarted "cur" .completed 9) else none,
        none, none⟩ "inc" 5).historyDeleted = true :=
  ((c6_amended
      ⟨none, .ok 1, none,
        fun isBrandNew _ =>
          if isBrandNew then some (.alreadyStarted "cur" .completed 9) else none,
        none, none⟩ "inc" 5 rfl ⟨1, rfl⟩ rfl).2.1 "cur" .completed 9 rfl
    (by decide) (by decide)).1

/-- Claim C10: the entry of ApplyEvents dereferences the request pointer
(for the logger fields) and the History pointer (for the batch-size metric)
before the nil-or-empty guard of line 144 is evaluated, so a nil request or
a nil History panics instead of being dropped; only the empty-events case
reaches the guard and is dropped without error. -/
theorem c10_applyEvents_entry_guard :
    applyEventsEntry none = .error .nilPointerDereference
  ∧ applyEventsEntry (some ⟨"w", "r", "s", 1, 1, 2, none⟩) = .error .nilPointerDereference
  ∧ applyEventsEntry (some ⟨"w", "r", "s", 1, 1, 2, some ⟨[]⟩⟩) = .ok .droppedEmpty :=
  ⟨rfl, rfl, rfl⟩

end Replicator

namespace Timer

theorem processExpiredUserTimerAux_attempts_le (attempts : Nat → UserTimerAttempt)
    (vts : Int) :
    ∀ remaining used updates,
      (processExpiredUserTimerAux attempts vts remaining used updates).attemptsUsed ≤
        used + remaining := by
  intro remaining
  induction remaining with
  | zero =>
    intro used updates
    simp [processExpiredUserTimerAux]
  | succ r ih =>
    intro used updates
    cases hload : (attempts used).load with
    | error e =>
      simp [processExpiredUserTimerAux, hload]
    | ok o =>
      cases o with
      | none =>
        simp [processExpiredUserTimerAux, hload]
      | some ms =>
        by_cases hrun : ms.running = false
        · simp [processExpiredUserTimerAux, hload, hrun]
        · cases hscan : expireUserTimers ms vts ms.userTimers ⟨false, 0, []⟩ with
          | error e =>
            simp [processExpiredUserTimerAux, hload, hrun, hscan]
          | ok stv =>
            cases hupd : (attempts used).updateResult with
            | none =>
              simp [processExpiredUserTimerAux, hload, hrun, hscan, hupd]
            | some e =>
              cases e with
              | conflict =>
                have hrec := ih (used + 1) (updates + 1)
                simp [processExpiredUserTimerAux, hload, hrun, hscan, hupd]
                omega
              | entityNotExists =>
                simp [processExpiredUserTimerAux, hload, hrun, hscan, hupd]
              | maxAttemptsExceeded =>
                simp [processExpiredUserTimerAux, hload, hrun, hscan, hupd]
              | timerNotFound =>
                simp [processExpiredUserTimerAux, hload, hrun, hscan, hupd]
              | failedToAddTimerFired =>
                simp [processExpiredUserTimerAux, hload, hrun, hscan, hupd]
              | internal code =>
                simp [processExpiredUserTimerAux, hload, hrun, hscan, hupd]

theorem processExpiredUserTimerAux_all_conflict (attempts : Nat → UserTimerAttempt)
    (vts : Int) (N : Nat)
    (h : ∀ i, i < N → ∃ ms stv, (attempts i).load = .ok (some ms) ∧ ms.running = true ∧
        expireUserTimers ms vts ms.userTimers ⟨false, 0, []⟩ = .ok stv ∧
        (attempts i).updateResult = some .conflict) :
    ∀ remaining used updates, used + remaining = N →
      processExpiredUserTimerAux attempts vts remaining used updates =
        ⟨some .maxAttemptsExceeded, N, updates + remaining⟩ := by
  intro remaining
  induction remaining with
  | zero =>
    intro used updates hN
    subst hN
    simp [processExpiredUserTimerAux]
  | succ r ih =>
    intro used updates hN
    obtain ⟨ms, stv, hload, hrun, hscan, hupd⟩ := h used (by omega)
    have hrec := ih (used + 1) (updates + 1) (by omega)
    simp [processExpiredUserTimerAux, hload, hrun, hscan, hupd, hrec, LoopResult.mk.injEq]
    all_goals omega

/-- Claim C4: the worker error discipline: an accepted task whose handler
reports EntityNotExists is acked and process succeeds, any other handler
error leaves the task un-acked with a failure counted, and success acks; and
the optimistic-concurrency loop of processExpiredUserTimer enters at most
conditionalRetryCount attempts, returns success without attempting a commit
when the workflow is no longer running, returns MaxAttemptsExceeded when
every commit fails with Conflict, and loops only on Conflict — any other
commit outcome ends the loop on the first attempt. -/
theorem c4_process_retry_discipline (penv : ProcessEnv) (taskType : TaskType)
    (conditionalRetryCount : Nat) (attempts : Nat → UserTimerAttempt) (vts : Int) :
    (penv.filter = .accepted → penv.handle taskType = some .entityNotExists →
      process penv taskType = ⟨none, true, false⟩)
  ∧ (∀ e, penv.filter = .accepted → penv.handle taskType = some e →
      e ≠ .entityNotExists → process penv taskType = ⟨some e, false, true⟩)
  ∧ (penv.filter = .accepted → penv.handle taskType = none →
      process penv taskType = ⟨none, true, false⟩)
  ∧ (processExpiredUserTimer conditionalRetryCount attempts vts).attemptsUsed ≤
      conditionalRetryCount
  ∧ (∀ ms, 0 < conditionalRetryCount → (attempts 0).load = .ok (some ms) →
      ms.running = false →
      processExpiredUserTimer conditionalRetryCount attempts vts = ⟨none, 1, 0⟩)
  ∧ ((∀ i, i < conditionalRetryCount → ∃ ms stv,
        (attempts i).load = .ok (some ms) ∧ ms.running = true ∧
        expireUserTimers ms vts ms.userTimers ⟨false, 0, []⟩ = .ok stv ∧
        (attempts i).updateResult = some .conflict) →
      processExpiredUserTimer conditionalRetryCount attempts vts =
        ⟨some .maxAttemptsExceeded, conditionalRetryCount, conditionalRetryCount⟩)
  ∧ (∀ ms stv e, 0 < conditionalRetryCount → (attempts 0).load = .ok (some ms) →
      ms.running = true →
      expireUserTimers ms vts ms.userTimers ⟨false, 0, []⟩ = .ok stv →
      (attempts 0).updateResult = some e → e ≠ .conflict →
      processExpiredUserTimer conditionalRetryCount attempts vts = ⟨some e, 1, 1⟩) := by
  refine ⟨?_, ?_, ?_, ?_, ?_, ?_, ?_⟩
  · intro hf hh
    simp [process, hf, hh]
  · intro e hf hh hne
    cases e with
    | entityNotExists => exact absurd rfl hne
    | conflict => simp [process, hf, hh]
    | maxAttemptsExceeded => simp [process, hf, hh]
    | timerNotFound => simp [process, hf, hh]
    | failedToAddTimerFired => simp [process, hf, hh]
    | internal code => simp [process, hf, hh]
  · intro hf hh
    simp [process, hf, hh]
  · have := processExpiredUserTimerAux_attempts_le attempts vts conditionalRetryCount 0 0
    simp only [processExpiredUserTimer]
    omega
  · intro ms hN hload hrun
    cases conditionalRetryCount with
    | zero => omega
    | succ n =>
      simp [processExpiredUserTimer, processExpiredUserTimerAux, hload, hrun]
  · intro hall
    have := processExpiredUserTimerAux_all_conflict attempts vts conditionalRetryCount hall
      conditionalRetryCount 0 0 (by omega)
    simpa [processExpiredUserTimer] using this
  · intro ms stv e hN hload hrun hscan hupd hne
    cases conditionalRetryCount with
    | zero => omega
    | succ n =>
      cases e with
      | conflict => exact absurd rfl hne
      | entityNotExists =>
        simp [processExpiredUserTimer, processExpiredUserTimerAux, hload, hrun, hscan, hupd]
      | maxAttemptsExceeded =>
        simp [processExpiredUserTimer, processExpiredUserTimerAux, hload, hrun, hscan, hupd]
      | timerNotFound =>
        simp [processExpiredUserTimer, processExpiredUserTimerAux, hload, hrun, hscan, hupd]
      | failedToAddTimerFired =>
        simp [processExpiredUserTimer, processExpiredUserTimerAux, hload, hrun, hscan, hupd]
      | internal code =>
        simp [processExpiredUserTimer, processExpiredUserTimerAux, hload, hrun, hscan, hupd]

/-- Claim C4 witness: with every commit failing on Conflict the loop stops
after exactly conditionalRetryCount attempts with MaxAttemptsExceeded. -/
theorem c4_witness :
    processExpiredUserTimer 3 (fun _ => ⟨.ok (some ⟨true, [], [], true⟩), some .conflict⟩) 0 =
      ⟨some .maxAttemptsExceeded, 3, 3⟩ :=
  (c4_process_retry_discipline ⟨.accepted, fun _ => none⟩ .userTimer 3
      (fun _ => ⟨.ok (some ⟨true, [], [], true⟩), some .conflict⟩) 0).2.2.2.2.2.1
    (fun _ _ => ⟨⟨true, [], [], true⟩, ⟨false, 0, []⟩, rfl, rfl, rfl, rfl⟩)

theorem heartbeatPreStep_non_heartbeat (ms : ActivityMS) (eid : Int) (kind : TimeoutKind)
    (x : Int) (h : kind ≠ TimeoutKind.heartbeat) :
    heartbeatPreStep ms ⟨eid, kind, x⟩ = ms := by
  cases hlk : alookup ms.activities eid with
  | none => simp [heartbeatPreStep, hlk]
  | some ai => simp [heartbeatPreStep, hlk, h]

theorem processActivityTimeoutAux_task_congr (env : ActivityTimeoutEnv)
    (task1 task2 : TimerTaskRec)
    (hpre : ∀ ms, heartbeatPreStep ms task1 = heartbeatPreStep ms task2) :
    ∀ remaining used scans,
      processActivityTimeoutAux env task1 remaining used scans =
        processActivityTimeoutAux env task2 remaining used scans := by
  intro remaining
  induction remaining with
  | zero => intro used scans; rfl
  | succ r ih =>
    intro used scans
    simp only [processActivityTimeoutAux, hpre, ih]

/-- Claim C5: the activity timeout scan: expiry is evaluated against the
shard current time rather than the task visibility timestamp (the result of
processActivityTimeout is invariant under the visibility timestamp for
non-heartbeat tasks, and a timer that is expired only relative to the shard
time still times out); an expired timer of a superseded attempt is skipped
unless its kind is ScheduleToClose; for every expired timer whose kind is
not ScheduleToStart a retry timer is attempted first and suppresses the
timed-out event; and the ActivityTaskTimedOut event is emitted for
ScheduleToClose always, for StartToClose only if the activity started, for
Heartbeat with the recorded details, and for ScheduleToStart only if it
never started. -/
theorem c5_processActivityTimeout (crt : ActivityInfo → Option Int) (rt : Int)
    (td : ActivityTimerDetail) (rest : List ActivityTimerDetail)
    (st : ActivityScanState) (ai : ActivityInfo) :
    (alookup st.activities td.activityID = some ai →
      isTimerExpired td.fireTime rt = true →
      td.attempt < ai.attempt → td.timeoutKind ≠ .scheduleToClose →
      expireActivityTimers crt rt (td :: rest) st = expireActivityTimers crt rt rest st)
  ∧ (∀ rtid, alookup st.activities td.activityID = some ai →
      isTimerExpired td.fireTime rt = true →
      ¬ (td.attempt < ai.attempt ∧ td.timeoutKind ≠ .scheduleToClose) →
      td.timeoutKind ≠ .scheduleToStart → crt ai = some rtid →
      expireActivityTimers crt rt (td :: rest) st =
        expireActivityTimers crt rt rest
          { st with
            activities := (aupdate st.activities td.activityID
              { ai with attempt := ai.attempt + 1 })
            newTimerTasks := st.newTimerTasks + 1
            createNewTimer := true })
  ∧ (alookup st.activities td.activityID = some ai →
      isTimerExpired td.fireTime rt = true →
      td.timeoutKind = .scheduleToClose → crt ai = none →
      expireActivityTimers crt rt (td :: rest) st =
        expireActivityTimers crt rt rest (emitTimedOut st ai .scheduleToClose []))
  ∧ (alookup st.activities td.activityID = some ai →
      isTimerExpired td.fireTime rt = true →
      ¬ td.attempt < ai.attempt → td.timeoutKind = .startToClose → crt ai = none →
      (ai.startedID ≠ emptyEventID →
        expireActivityTimers crt rt (td :: rest) st =
          expireActivityTimers crt rt rest (emitTimedOut st ai .startToClose []))
      ∧ (ai.startedID = emptyEventID →
        expireActivityTimers crt rt (td :: rest) st = expireActivityTimers crt rt rest st))
  ∧ (alookup st.activities td.activityID = some ai →
      isTimerExpired td.fireTime rt = true →
      ¬ td.attempt < ai.attempt → td.timeoutKind = .heartbeat → crt ai = none →
      expireActivityTimers crt rt (td :: rest) st =
        expireActivityTimers crt rt rest (emitTimedOut st ai .heartbeat ai.details))
  ∧ (alookup st.activities td.activityID = some ai →
      isTimerExpired td.fireTime rt = true →
      ¬ td.attempt < ai.attempt → td.timeoutKind = .scheduleToStart →
      (ai.startedID = emptyEventID →
        expireActivityTimers crt rt (td :: rest) st =
          expireActivityTimers crt rt rest (emitTimedOut st ai .scheduleToStart []))
      ∧ (ai.startedID ≠ emptyEventID →
        expireActivityTimers crt rt (td :: rest) st = expireActivityTimers crt rt rest st))
  ∧ (∀ N env eid kind x y, kind ≠ TimeoutKind.heartbeat →
      processActivityTimeout N env ⟨eid, kind, x⟩ = processActivityTimeout N env ⟨eid, kind, y⟩)
  ∧ (isTimerExpired 50 0 = false ∧ isTimerExpired 50 100 = true ∧
      processActivityTimeout 1
        ⟨100, fun _ => none,
          fun _ => ⟨.ok (some ⟨true, [(1, ⟨1, 7, 0, [], 0, 0⟩)],
            [⟨1, .startToClose, 0, 50, true, 0⟩], true⟩), none⟩⟩
        ⟨1, .startToClose, 0⟩ =
        ⟨none, 1, [⟨[(1, ⟨1, 7, 0, [], 0, 0⟩)], [⟨1, 7, .startToClose, []⟩], 0, true, false⟩]⟩) := by
  refine ⟨?_, ?_, ?_, ?_, ?_, ?_, ?_, ?_⟩
  · intro hlk hexp hatt hkind
    simp [expireActivityTimers, hlk, hexp, hatt, hkind]
  · intro rtid hlk hexp hskip hks hcrt
    simp [expireActivityTimers, hlk, hexp, hskip, hks, hcrt]
  · intro hlk hexp hkc hcrt
    simp [expireActivityTimers, emitTimedOut, hlk, hexp, hkc, hcrt]
  · intro hlk hexp hatt2 hk hcrt
    constructor
    · intro hstart
      simp [expireActivityTimers, emitTimedOut, hlk, hexp, hatt2, hk, hcrt, hstart]
    · intro hstart
      simp [expireActivityTimers, emitTimedOut, hlk, hexp, hatt2, hk, hcrt, hstart]
  · intro hlk hexp hatt2 hk hcrt
    simp [expireActivityTimers, emitTimedOut, hlk, hexp, hatt2, hk, hcrt]
  · intro hlk hexp hatt2 hk
    constructor
    · intro hstart
      simp [expireActivityTimers, emitTimedOut, hlk, hexp, hatt2, hk, hstart]
    · intro hstart
      simp [expireActivityTimers, emitTimedOut, hlk, hexp, hatt2, hk, hstart]
  · intro N env eid kind x y h
    have hpre : ∀ ms, heartbeatPreStep ms ⟨eid, kind, x⟩ = heartbeatPreStep ms ⟨eid, kind, y⟩ := by
      intro ms
      rw [heartbeatPreStep_non_heartbeat ms eid kind x h,
        heartbeatPreStep_non_heartbeat ms eid kind y h]
    exact processActivityTimeoutAux_task_congr env ⟨eid, kind, x⟩ ⟨eid, kind, y⟩ hpre N 0 []
  · exact ⟨by decide, by decide, by decide⟩

/-- Claim C5 witness: a non-heartbeat activity timeout task is processed
identically whatever its visibility timestamp, since expiry is judged
against the shard current time. -/
theorem c5_witness :
    processActivityTimeout 1
      ⟨100, fun _ => none,
        fun _ => ⟨.ok (some ⟨true, [(1, ⟨1, 7, 0, [], 0, 0⟩)],
          [⟨1, .startToClose, 0, 50, true, 0⟩], true⟩), none⟩⟩
      ⟨1, .startToClose, 0⟩ =
    processActivityTimeout 1
      ⟨100, fun _ => none,
        fun _ => ⟨.ok (some ⟨true, [(1, ⟨1, 7, 0, [], 0, 0⟩)],
          [⟨1, .startToClose, 0, 50, true, 0⟩], true⟩), none⟩⟩
      ⟨1, .startToClose, 999⟩ :=
  (c5_processActivityTimeout (fun _ => none) 0 ⟨0, .startToClose, 0, 0, false, 0⟩ []
      ⟨[], [], 0, false, false⟩ ⟨0, 0, 0, [], 0, 0⟩).2.2.2.2.2.2.1 1
    ⟨100, fun _ => none,
      fun _ => ⟨.ok (some ⟨true, [(1, ⟨1, 7, 0, [], 0, 0⟩)],
        [⟨1, .startToClose, 0, 50, true, 0⟩], true⟩), none⟩⟩
    1 .startToClose 0 999 (by decide)

end Timer

end Cadence
